import Mathlib

/-!
Tsunami function generator: unit-conversion core

A shallow embedding of the arithmetic in `src/tsunami.h` (class `Tsunami_Class`) together
with machine-checked statements about it.

Target conventions (AVR, as used by the Arduino core for this board):
`int` is 16 bits, `long` / `int32_t` is 32 bits, `float` is IEEE binary32, signed integer
division truncates toward zero and `>>` on a signed value is an arithmetic shift.

Machine integers are unbounded `Nat` / `Int` values with an explicit reduction at every
operation whose C type is 32 bits wide, so that "does not overflow" is a statement that the
reduction changes nothing.
-/

namespace Tsunami

/-! ## Machine integers -/

/-- Reduction of an unbounded natural number to `uint32_t`. -/
def wrapU32 (n : Nat) : Nat := n % 2 ^ 32

/-- Reduction of an unbounded integer to `int32_t` (two's complement wrap-around). -/
def wrapInt32 (x : Int) : Int := (x + 2 ^ 31) % 2 ^ 32 - 2 ^ 31

/-- Reduction of an unbounded integer to `int16_t`, as done by the cast `(int16_t)value`. -/
def wrapInt16 (x : Int) : Int := (x + 2 ^ 15) % 2 ^ 16 - 2 ^ 15

/-! ## Single-precision arithmetic

A `float` is represented by the rational number it denotes.  Every operation computes the
exact rational result and rounds it to 24 significant bits, ties to even; the exponent range
is taken to be unbounded (no infinities, NaNs or subnormals). -/

/-- Nearest integer to a rational, a tie going to the even neighbour. -/
def roundHalfEven (q : ℚ) : Int :=
  let lo : Int := ⌊q⌋
  let frac : ℚ := q - lo
  if frac < 1 / 2 then lo
  else if 1 / 2 < frac then lo + 1
  else if lo % 2 = 0 then lo else lo + 1

/-- Rounding of an exact result to the binary32 format: the value is scaled so that its
leading bit sits at position 23, rounded to an integer significand, and scaled back. -/
def f32round (q : ℚ) : ℚ :=
  if q = 0 then 0
  else
    let e : Int := Int.log 2 |q| - 23
    (roundHalfEven (q / (2 : ℚ) ^ e) : ℚ) * (2 : ℚ) ^ e

/-- Conversion of an integer to `float`. -/
def f32ofInt (n : Int) : ℚ := f32round n

/-- Multiplication of two `float` values. -/
def f32mul (a b : ℚ) : ℚ := f32round (a * b)

/-- Addition of two `float` values. -/
def f32add (a b : ℚ) : ℚ := f32round (a + b)

/-- Conversion of a `float` to `int32_t`: the fractional part is discarded (truncation toward
zero).  For a value outside the `int32_t` range C leaves the result undefined; it is taken to
be `INT32_MIN`, the value the conversion routine delivers.  The statements below that cover
every calibration entry hold for any `int32_t` result of this conversion. -/
def f32toInt32 (x : ℚ) : Int :=
  if -2 ^ 31 ≤ Int.tdiv x.num x.den ∧ Int.tdiv x.num x.den < 2 ^ 31 then Int.tdiv x.num x.den
  else -2 ^ 31

/-! ## Constants (`tsunami.h` lines 29-43) -/

/-- Reference clock of the DDS in MHz: `#define TSUNAMI_FREQUENCY 16`. -/
def TSUNAMI_FREQUENCY : Nat := 16

/-- Resolution of the DAC: `#define TSUNAMI_DAC_BITS 12`. -/
def TSUNAMI_DAC_BITS : Nat := 12

/-- Number of DAC codes: `#define TSUNAMI_DAC_RANGE (1 << TSUNAMI_DAC_BITS)`. -/
def TSUNAMI_DAC_RANGE : Int := 2 ^ TSUNAMI_DAC_BITS

/-- Full-scale offset in millivolts: `#define TSUNAMI_OFFSET_FS 4074`. -/
def TSUNAMI_OFFSET_FS : Int := 4074

/-- Full-scale amplitude in millivolts: `#define TSUNAMI_AMPLITUDE_FS 6606`. -/
def TSUNAMI_AMPLITUDE_FS : Int := 6606

/-- Resolution of the ADC: `#define TSUNAMI_ADC_BITS 10`. -/
def TSUNAMI_ADC_BITS : Nat := 10

/-- Number of ADC codes: `#define TSUNAMI_ADC_RANGE (1 << TSUNAMI_ADC_BITS)`. -/
def TSUNAMI_ADC_RANGE : Int := 2 ^ TSUNAMI_ADC_BITS

/-- Input voltage range in millivolts: `#define TSUNAMI_VIN_RANGE 3037`. -/
def TSUNAMI_VIN_RANGE : Int := 3037

/-- Fixed-point scale factor of the ADC readers:
`((((int32_t)TSUNAMI_VIN_RANGE) << 17) / TSUNAMI_ADC_RANGE)`, the left shift by 17 being a
32-bit multiplication by `2 ^ 17`. -/
def TSUNAMI_VIN_SCALING : Int :=
  wrapInt32 (Int.tdiv (wrapInt32 (TSUNAMI_VIN_RANGE * 2 ^ 17)) TSUNAMI_ADC_RANGE)

/-! ## Calibration data (`tsunami.h` lines 50-71) -/

/-- Enumerator `CAL_DATA_OFFSET = 0` of `enum CalibratedValue`. -/
@[reducible] def CAL_DATA_OFFSET : Nat := 0

/-- Enumerator `CAL_DATA_AMPLITUDE = 1`. -/
@[reducible] def CAL_DATA_AMPLITUDE : Nat := 1

/-- Enumerator `CAL_DATA_MEAN_VALUE = 2`. -/
@[reducible] def CAL_DATA_MEAN_VALUE : Nat := 2

/-- Enumerator `CAL_DATA_PEAK_VALUE = 3`. -/
@[reducible] def CAL_DATA_PEAK_VALUE : Nat := 3

/-- Enumerator `CAL_DATA_CURRENT_VALUE = 4`. -/
@[reducible] def CAL_DATA_CURRENT_VALUE : Nat := 4

/-- Enumerator `CAL_DATA_ALL = 5`; it is also the length of the runtime table. -/
@[reducible] def CAL_DATA_ALL : Nat := 5

/-- Enumerator `CAL_DATA_NONE = 6`. -/
@[reducible] def CAL_DATA_NONE : Nat := 6

/-- The struct `calibration_data_t { float scale; float shift; }`. -/
structure calibration_data_t where
  scale : ℚ
  shift : ℚ

/-- The runtime table `calibration_data_t cal_data[CAL_DATA_ALL]`: one entry per index below
`CAL_DATA_ALL`. -/
abbrev cal_data_t : Type := Fin CAL_DATA_ALL → calibration_data_t

/-- The runtime table in which every entry is `{scale = 1.0, shift = 0.0}`. -/
def identity_cal_data : cal_data_t := fun _ => { scale := 1, shift := 0 }

/-- The runtime table `base` with the entry at index `i` replaced by `c`. -/
def cal_data_with (base : cal_data_t) (i : Fin CAL_DATA_ALL) (c : calibration_data_t) :
    cal_data_t :=
  fun j => if j = i then c else base j

/-! ## Frequency word (`tsunami.h` lines 366-374) -/

/-- Low-byte term: `((frequency & 0xFF) << 22) / (15625l * TSUNAMI_FREQUENCY)`, the shift
being performed in `uint32_t`. -/
def lval (frequency : Nat) : Nat :=
  wrapU32 ((frequency &&& 0xFF) <<< 22) / (15625 * TSUNAMI_FREQUENCY)

/-- Middle-byte term: `((frequency & 0xFF00) << 14) / (15625l * TSUNAMI_FREQUENCY)`. -/
def mval (frequency : Nat) : Nat :=
  wrapU32 ((frequency &&& 0xFF00) <<< 14) / (15625 * TSUNAMI_FREQUENCY)

/-- High-byte term: `((frequency & 0xFF0000) << 6) / (15625l * TSUNAMI_FREQUENCY)`. -/
def hval (frequency : Nat) : Nat :=
  wrapU32 ((frequency &&& 0xFF0000) <<< 6) / (15625 * TSUNAMI_FREQUENCY)

/-- The function `computeFrequencyWord`: `return (hval << 16) + (mval << 8) + lval;` with every
shift and every addition reduced to `uint32_t`. -/
def computeFrequencyWord (frequency : Nat) : Nat :=
  wrapU32 (wrapU32 (wrapU32 (hval frequency <<< 16) + wrapU32 (mval frequency <<< 8))
    + lval frequency)

/-- Reference clock in Hz, written `TSUNAMI_FREQUENCY * 1000000` in the source. -/
def referenceClockHz : Nat := TSUNAMI_FREQUENCY * 1000000

/-- The wide computation named by the source comment on `computeFrequencyWord`,
"a manual expansion of (frequency * 2^28) / m_frequency_mhz": one multiplication followed by
one truncating division, on unbounded integers. -/
def wideFrequencyWord (frequency : Nat) : Nat := frequency * 2 ^ 28 / referenceClockHz

/-- The byte-decomposition formula on unbounded integers, `b0`, `b1`, `b2` being the three
low bytes of the frequency. -/
def byteDecompositionWord (frequency : Nat) : Nat :=
  65536 * ((frequency / 65536 % 256) * 2 ^ 22 / 250000)
    + 256 * ((frequency / 256 % 256) * 2 ^ 22 / 250000)
    + (frequency % 256) * 2 ^ 22 / 250000

/-! ## Signal value conversion (`tsunami.h` lines 175-254) -/

/-- The expression `(float)(x * scale) + shift` assigned to an `int32_t`: `x` is converted to
`float`, multiplied by `scale`, `shift` is added, and the sum is converted to `int32_t`. -/
def applyCalibration (c : calibration_data_t) (x : Int) : Int :=
  f32toInt32 (f32add (f32mul (f32ofInt x) c.scale) c.shift)

/-- Lines 184-192 of `setOffset`: from the calibrated `int32_t` value to the code handed to
`mcp49xx_write`. -/
def offsetDacCode (value : Int) : Int :=
  let value := wrapInt32 (value + TSUNAMI_OFFSET_FS)
  let value := wrapInt32 (value * TSUNAMI_DAC_RANGE)
  let value := wrapInt32 (Int.tdiv value (TSUNAMI_OFFSET_FS * 2))
  let value := if value < 0 then 0 else value
  let value := if value ≥ TSUNAMI_DAC_RANGE then TSUNAMI_DAC_RANGE - 1 else value
  value

/-- The function `setOffset(int millivolts)`; the result is the code written to DAC channel
`TSUNAMI_OFFSET_ID`. -/
def setOffset (cal_data : cal_data_t) (millivolts : Int) : Int :=
  offsetDacCode (applyCalibration (cal_data ⟨CAL_DATA_OFFSET, by decide⟩) millivolts)

/-- Lines 202-209 of `setAmplitude`: from the calibrated `int32_t` value to the code handed to
`mcp49xx_write`, which is `TSUNAMI_DAC_RANGE - value - 1`. -/
def amplitudeDacCode (value : Int) : Int :=
  let value := wrapInt32 (value * TSUNAMI_DAC_RANGE)
  let value := wrapInt32 (Int.tdiv value TSUNAMI_AMPLITUDE_FS)
  let value := if value < 0 then 0 else value
  let value := if value ≥ TSUNAMI_DAC_RANGE then TSUNAMI_DAC_RANGE - 1 else value
  wrapInt32 (wrapInt32 (TSUNAMI_DAC_RANGE - value) - 1)

/-- The function `setAmplitude(int millivolts)`; the result is the code written to DAC channel
`TSUNAMI_AMPLITUDE_ID`. -/
def setAmplitude (cal_data : cal_data_t) (millivolts : Int) : Int :=
  amplitudeDacCode (applyCalibration (cal_data ⟨CAL_DATA_AMPLITUDE, by decide⟩) millivolts)

/-- The function `measurePeakVoltage`; `raw` is the value returned by
`analogRead(TSUNAMI_PEAK)`. -/
def measurePeakVoltage (cal_data : cal_data_t) (raw : Int) : Int :=
  let value := raw
  let value := wrapInt32 (value * TSUNAMI_VIN_SCALING)
  let value := value >>> (16 : Nat)
  let value := wrapInt32 (value - TSUNAMI_VIN_RANGE)
  let value := applyCalibration (cal_data ⟨CAL_DATA_PEAK_VALUE, by decide⟩) value
  wrapInt16 value

/-- The function `measureMeanVoltage`; `raw` is the value returned by
`analogRead(TSUNAMI_VAVG)`. -/
def measureMeanVoltage (cal_data : cal_data_t) (raw : Int) : Int :=
  let value := raw
  let value := wrapInt32 (value * TSUNAMI_VIN_SCALING)
  let value := value >>> (16 : Nat)
  let value := wrapInt32 (value - TSUNAMI_VIN_RANGE)
  let value := applyCalibration (cal_data ⟨CAL_DATA_MEAN_VALUE, by decide⟩) value
  wrapInt16 value

/-- The function `measureCurrentVoltage`; `raw` is the value returned by
`analogRead(TSUNAMI_VIN)`. -/
def measureCurrentVoltage (cal_data : cal_data_t) (raw : Int) : Int :=
  let value := raw
  let value := wrapInt32 (value * TSUNAMI_VIN_SCALING)
  let value := value >>> (16 : Nat)
  let value := wrapInt32 (value - TSUNAMI_VIN_RANGE)
  let value := applyCalibration (cal_data ⟨CAL_DATA_CURRENT_VALUE, by decide⟩) value
  wrapInt16 value

/-! ## Frequency register selection (`tsunami.h` lines 100-143, 163-167, 328-339) -/

/-- Conversion of an integer to `uint32_t`, as when a `long int` is passed to
`computeFrequencyWord(uint32_t)`. -/
def toU32 (x : Int) : Nat := (x % 2 ^ 32).toNat

/-- Division of two `float` values. -/
def f32div (a b : ℚ) : ℚ := f32round (a / b)

/-- Conversion of a `float` to `uint32_t`: the fractional part is discarded and the result is
reduced to 32 bits. -/
def f32toU32 (x : ℚ) : Nat := toU32 (Int.tdiv x.num x.den)

/-- Calls made to the external DDS driver and to the pin layer, as issued by `setFrequencyWord`
(`ad983x_set_frequency(&dds, reg, frequency)`) and by `selectFrequency`
(`digitalWrite(TSUNAMI_DDS_FSEL, reg)`). -/
inductive dds_call where
  | ad983x_set_frequency (reg : Nat) (frequency : Nat)
  | digitalWrite_FSEL (reg : Nat)

/-- The members of `Tsunami_Class` that `setFrequency` touches: `current_frequency_reg`
("the frequency register currently being used", a `uint8_t`), the value last written to the
pin `TSUNAMI_DDS_FSEL`, which selects the register that drives the DDS, and the external
calls issued so far, oldest first. -/
structure Tsunami_Class where
  current_frequency_reg : Nat
  selected_frequency_reg : Nat
  calls : List dds_call

/-- The function `setFrequencyWord(byte reg, uint32_t frequency)`. -/
def setFrequencyWord (self : Tsunami_Class) (reg : Nat) (frequency : Nat) : Tsunami_Class :=
  { self with calls := self.calls ++ [dds_call.ad983x_set_frequency reg frequency] }

/-- The overload `setFrequency(byte reg, float frequency)`:
`setFrequencyWord(reg, (frequency * (1l << 28)) / (TSUNAMI_FREQUENCY * 1000000))`. -/
def setFrequencyOnRegisterFloat (self : Tsunami_Class) (reg : Nat) (frequency : ℚ) :
    Tsunami_Class :=
  setFrequencyWord self reg
    (f32toU32 (f32div (f32mul frequency (f32ofInt (2 ^ 28))) (f32ofInt (referenceClockHz : Int))))

/-- The overload `setFrequency(byte reg, double frequency)`, which casts to `float`; `double`
and `float` are the same 32-bit type on the target. -/
def setFrequencyOnRegisterDouble (self : Tsunami_Class) (reg : Nat) (frequency : ℚ) :
    Tsunami_Class :=
  setFrequencyOnRegisterFloat self reg frequency

/-- The sentinel `#define TSUNAMI_CALIBRATION 0xDa7aDa7a`. -/
def TSUNAMI_CALIBRATION : Nat := 0xDa7aDa7a

/-- The struct `calibration_record_t { uint32_t magic; float scale; float shift; }`. -/
structure calibration_record_t where
  magic : Nat
  scale : ℚ
  shift : ℚ

/-- Modelled from the spec: the status values of the calibration operations, whose codes are
not in the header.  "Returns success, or an invalid-slot error"; "returns an uncalibrated
status". -/
inductive cal_status where
  | success
  | invalid_slot
  | uncalibrated

/-- Modelled from the spec: the persisted storage, whose layout is not in the header.
"Exactly 5 persisted records exist, at disjoint, slot-determined storage addresses." -/
abbrev cal_store_t : Type := Fin CAL_DATA_ALL → calibration_record_t

/-- The state of the calibration core: persisted records and the runtime table `cal_data`. -/
structure cal_state where
  store : cal_store_t
  cal_data : cal_data_t

/-- The storage `base` with the record of slot `i` replaced by `r`. -/
def cal_store_with (base : cal_store_t) (i : Fin CAL_DATA_ALL) (r : calibration_record_t) :
    cal_store_t :=
  fun j => if j = i then r else base j

/-- Modelled from the spec: the body of `setCalibrationData`, which is not in the header.
"Builds a record {magic = SENTINEL, scale, shift} and writes it to the slot's fixed storage
address.  Also immediately updates the Runtime Table entry for that slot to {scale, shift}.
Returns success, or an invalid-slot error if the slot argument is not one of the 5 real
slots; no storage write occurs on error." -/
def setCalibrationData (st : cal_state) (value : Nat) (scale shift : ℚ) :
    cal_status × cal_state :=
  if h : value < CAL_DATA_ALL then
    (cal_status.success,
      { store := cal_store_with st.store ⟨value, h⟩
          { magic := TSUNAMI_CALIBRATION, scale := scale, shift := shift }
        cal_data := cal_data_with st.cal_data ⟨value, h⟩ { scale := scale, shift := shift } })
  else (cal_status.invalid_slot, st)

/-- Modelled from the spec: the body of `getCalibrationData`, which is not in the header.
"Reads the persisted record at the slot's address.  If the magic field does not match the
sentinel, returns an uncalibrated status and leaves the output parameters unmodified.  If
valid, writes the stored scale/shift to the outputs and returns success."  An out-of-range slot
"must fail without side effects".  The arguments `scale` and `shift` are the contents of the
output parameters before the call; the result carries their contents after it. -/
def getCalibrationData (st : cal_state) (value : Nat) (scale shift : ℚ) :
    cal_status × ℚ × ℚ :=
  if h : value < CAL_DATA_ALL then
    if (st.store ⟨value, h⟩).magic = TSUNAMI_CALIBRATION then
      (cal_status.success, (st.store ⟨value, h⟩).scale, (st.store ⟨value, h⟩).shift)
    else (cal_status.uncalibrated, scale, shift)
  else (cal_status.invalid_slot, scale, shift)

/-- Modelled from the spec: the single-slot case of `useCalibrationData`.  "Read that slot's
persisted record; if valid, copy {scale, shift} into the matching Runtime Table entry; if
invalid, leave the Runtime Table entry untouched." -/
def loadCalibrationEntry (st : cal_state) (i : Fin CAL_DATA_ALL) : calibration_data_t :=
  if (st.store i).magic = TSUNAMI_CALIBRATION then
    { scale := (st.store i).scale, shift := (st.store i).shift }
  else st.cal_data i

/-- Modelled from the spec: the body of `useCalibrationData`, which is not in the header.
"For None: set all 5 Runtime Table entries to identity {1.0, 0.0} without touching or reading
persisted storage.  For All: perform the specific-slot operation independently for each of the
5 slots.  Returns success for All/None always; for a single slot, success only if that slot's
record was valid, otherwise the uncalibrated status."  A selector above `CAL_DATA_NONE` is
out of range and "must fail without side effects". -/
def useCalibrationData (st : cal_state) (value : Nat) : cal_status × cal_state :=
  if value = CAL_DATA_NONE then
    (cal_status.success, { st with cal_data := fun _ => { scale := 1, shift := 0 } })
  else if value = CAL_DATA_ALL then
    (cal_status.success, { st with cal_data := fun i => loadCalibrationEntry st i })
  else if h : value < CAL_DATA_ALL then
    if (st.store ⟨value, h⟩).magic = TSUNAMI_CALIBRATION then
      (cal_status.success,
        { st with
          cal_data :=
            cal_data_with st.cal_data ⟨value, h⟩ (loadCalibrationEntry st ⟨value, h⟩) })
    else (cal_status.uncalibrated, st)
  else (cal_status.invalid_slot, st)

/-- One call in a sequence of calibration operations. -/
inductive cal_call where
  | setCall (value : Nat) (scale shift : ℚ)
  | useCall (value : Nat)

/-- The state after one call of a sequence. -/
def runCall (st : cal_state) : cal_call → cal_state
  | cal_call.setCall value scale shift => (setCalibrationData st value scale shift).2
  | cal_call.useCall value => (useCalibrationData st value).2

/-- The state after a sequence of calls, executed from left to right. -/
def runCalls (st : cal_state) (calls : List cal_call) : cal_state :=
  calls.foldl runCall st

/-- A storage in which no record carries the sentinel (all fields zero). -/
def blank_store : cal_store_t := fun _ => { magic := 0, scale := 0, shift := 0 }

/-- The state at startup on blank storage: every runtime entry is the identity. -/
def startup_state : cal_state := { store := blank_store, cal_data := identity_cal_data }

/-! ## Machine-integer lemmas -/

theorem wrapInt32_eq_self (x : Int) (hlo : -2 ^ 31 ≤ x) (hhi : x < 2 ^ 31) :
    wrapInt32 x = x := by
  unfold wrapInt32
  omega

theorem wrapInt16_eq_self (x : Int) (hlo : -2 ^ 15 ≤ x) (hhi : x < 2 ^ 15) :
    wrapInt16 x = x := by
  unfold wrapInt16
  omega

/-- Truncating division by a positive divisor in terms of floor division. -/
theorem tdiv_eq_ite (x d : Int) (hd : 0 < d) :
    Int.tdiv x d = if 0 ≤ x then x / d else -((-x) / d) := by
  split
  · next h => exact Int.tdiv_eq_ediv h (le_of_lt hd)
  · next h =>
    have hx : 0 ≤ -x := by omega
    have : Int.tdiv (-x) d = (-x) / d := Int.tdiv_eq_ediv hx (le_of_lt hd)
    rw [← this, Int.neg_tdiv, neg_neg]

/-! ## Single-precision lemmas: integers below `2 ^ 24` are represented exactly -/

theorem roundHalfEven_intCast (k : Int) : roundHalfEven (k : ℚ) = k := by
  simp [roundHalfEven]

theorem f32round_intCast (n : Int) (h : |n| < 2 ^ 24) : f32round (n : ℚ) = n := by
  unfold f32round
  by_cases h0 : (n : ℚ) = 0
  · simp [h0]
  · rw [if_neg h0]
    have hn : n ≠ 0 := by exact_mod_cast h0
    have habs : (1 : ℚ) ≤ |(n : ℚ)| := by
      have : (1 : Int) ≤ |n| := Int.one_le_abs hn
      exact_mod_cast this
    have hlt : |(n : ℚ)| < ((2 : ℕ) : ℚ) ^ (24 : Int) := by
      have : ((|n| : Int) : ℚ) < ((2 ^ 24 : Int) : ℚ) := Int.cast_lt.2 h
      rw [Int.cast_abs] at this
      calc |(n : ℚ)| < ((2 ^ 24 : Int) : ℚ) := this
        _ = ((2 : ℕ) : ℚ) ^ (24 : Int) := by norm_num
    have hlo : 0 ≤ Int.log 2 |(n : ℚ)| := by
      have := Int.log_mono_right (b := 2) (by norm_num : (0 : ℚ) < 1) habs
      rwa [Int.log_one_right] at this
    have hhi : Int.log 2 |(n : ℚ)| < 24 :=
      (Int.lt_zpow_iff_log_lt (by norm_num) (by positivity)).1 hlt
    obtain ⟨m, hm⟩ : ∃ m : Nat, Int.log 2 |(n : ℚ)| - 23 = -(m : Int) :=
      ⟨(23 - Int.log 2 |(n : ℚ)|).toNat, by omega⟩
    simp only [hm, zpow_neg, zpow_natCast]
    have hpos : ((2 : ℚ) ^ m) ≠ 0 := by positivity
    have : (n : ℚ) / ((2 : ℚ) ^ m)⁻¹ = ((n * 2 ^ m : Int) : ℚ) := by
      push_cast
      field_simp
    rw [this, roundHalfEven_intCast]
    push_cast
    field_simp

theorem f32toInt32_intCast (n : Int) (hlo : -2 ^ 31 ≤ n) (hhi : n < 2 ^ 31) :
    f32toInt32 (n : ℚ) = n := by
  unfold f32toInt32
  rw [Rat.num_intCast, Rat.den_intCast]
  simp only [Nat.cast_one, Int.tdiv_one]
  rw [if_pos ⟨hlo, hhi⟩]

/-- With scale 1.0 and an integer shift the calibration step is exact integer addition, as
long as the operands stay below `2 ^ 24` in magnitude. -/
theorem applyCalibration_unit_scale (c : calibration_data_t) (x s : Int)
    (hscale : c.scale = 1) (hshift : c.shift = (s : ℚ))
    (hx : |x| < 2 ^ 24) (hsum : |x + s| < 2 ^ 24) :
    applyCalibration c x = x + s := by
  unfold applyCalibration f32add f32mul f32ofInt
  rw [hscale, hshift, f32round_intCast x hx, mul_one, f32round_intCast x hx]
  have hcast : (x : ℚ) + (s : ℚ) = ((x + s : Int) : ℚ) := by push_cast; rfl
  rw [hcast, f32round_intCast (x + s) hsum]
  have h := abs_lt.1 hsum
  exact f32toInt32_intCast (x + s) (by omega) (by omega)

/-- With the identity entry `{1.0, 0.0}` the calibration step returns its input. -/
theorem applyCalibration_identity (c : calibration_data_t) (x : Int)
    (hc : c = { scale := 1, shift := 0 }) (hx : |x| < 2 ^ 24) :
    applyCalibration c x = x := by
  have h := applyCalibration_unit_scale c x 0 (by rw [hc]) (by rw [hc]; simp) hx (by simpa using hx)
  simpa using h

/-! ## Frequency word lemmas -/

/-- Masking with a byte-wide mask at bit position `k` extracts the byte at that position. -/
theorem and_byte_mask (f k : Nat) :
    f &&& ((2 ^ 8 - 1) <<< k) = (f / 2 ^ k % 2 ^ 8) * 2 ^ k := by
  apply Nat.eq_of_testBit_eq
  intro i
  rw [← Nat.shiftLeft_eq, ← Nat.shiftRight_eq_div_pow]
  simp only [Nat.testBit_and, Nat.testBit_shiftLeft, Nat.testBit_two_pow_sub_one,
    Nat.testBit_mod_two_pow, Nat.testBit_shiftRight]
  by_cases h : k ≤ i
  · have : k + (i - k) = i := by omega
    simp [h, this, Bool.and_comm]
  · simp [h]

theorem and_0xFF (f : Nat) : f &&& 0xFF = f % 256 := by
  have := and_byte_mask f 0
  simpa using this

theorem and_0xFF00 (f : Nat) : f &&& 0xFF00 = (f / 256 % 256) * 256 := by
  have := and_byte_mask f 8
  simpa using this

theorem and_0xFF0000 (f : Nat) : f &&& 0xFF0000 = (f / 65536 % 256) * 65536 := by
  have := and_byte_mask f 16
  simpa using this

theorem lval_eq (f : Nat) : lval f = (f % 256) * 2 ^ 22 / 250000 := by
  have hb : f % 256 < 256 := Nat.mod_lt _ (by norm_num)
  unfold lval wrapU32 TSUNAMI_FREQUENCY
  rw [and_0xFF, Nat.shiftLeft_eq, Nat.mod_eq_of_lt (by omega)]

theorem mval_eq (f : Nat) : mval f = (f / 256 % 256) * 2 ^ 22 / 250000 := by
  have hb : f / 256 % 256 < 256 := Nat.mod_lt _ (by norm_num)
  unfold mval wrapU32 TSUNAMI_FREQUENCY
  rw [and_0xFF00, Nat.shiftLeft_eq, Nat.mul_assoc, show 256 * 2 ^ 14 = 2 ^ 22 from by norm_num,
    Nat.mod_eq_of_lt (by omega)]

theorem hval_eq (f : Nat) : hval f = (f / 65536 % 256) * 2 ^ 22 / 250000 := by
  have hb : f / 65536 % 256 < 256 := Nat.mod_lt _ (by norm_num)
  unfold hval wrapU32 TSUNAMI_FREQUENCY
  rw [and_0xFF0000, Nat.shiftLeft_eq, Nat.mul_assoc,
    show 65536 * 2 ^ 6 = 2 ^ 22 from by norm_num, Nat.mod_eq_of_lt (by omega)]

/-- Each byte-wise quotient is at most 4278. -/
theorem byte_quotient_le (b : Nat) (hb : b < 256) : b * 2 ^ 22 / 250000 ≤ 4278 := by
  omega

/-- The `uint32_t` computation coincides with the byte-decomposition formula on unbounded
integers. -/
theorem computeFrequencyWord_eq (f : Nat) :
    computeFrequencyWord f = byteDecompositionWord f := by
  have h0 := byte_quotient_le (f % 256) (Nat.mod_lt _ (by norm_num))
  have h1 := byte_quotient_le (f / 256 % 256) (Nat.mod_lt _ (by norm_num))
  have h2 := byte_quotient_le (f / 65536 % 256) (Nat.mod_lt _ (by norm_num))
  unfold computeFrequencyWord wrapU32 byteDecompositionWord
  rw [lval_eq, mval_eq, hval_eq, Nat.shiftLeft_eq, Nat.shiftLeft_eq]
  generalize (f / 65536 % 256) * 2 ^ 22 / 250000 = h at *
  generalize (f / 256 % 256) * 2 ^ 22 / 250000 = m at *
  generalize (f % 256) * 2 ^ 22 / 250000 = l at *
  omega

/-- Integer form of the truncation bound: the word, scaled by the divisor 250000, lies within
65793 divisor units below `f * 2 ^ 22`. -/
theorem computeFrequencyWord_scaled_bounds (f : Nat) (hf : f < 2 ^ 24) :
    computeFrequencyWord f * 250000 ≤ f * 2 ^ 22
      ∧ f * 2 ^ 22 < (computeFrequencyWord f + 65793) * 250000 := by
  rw [computeFrequencyWord_eq]
  unfold byteDecompositionWord
  have hdd : f / 256 / 256 = f / 65536 := Nat.div_div_eq_div_mul f 256 256
  have hsplit : f = (f / 65536 % 256) * 65536 + (f / 256 % 256) * 256 + f % 256 := by omega
  have h0 : f % 256 < 256 := Nat.mod_lt _ (by norm_num)
  have h1 : f / 256 % 256 < 256 := Nat.mod_lt _ (by norm_num)
  have h2 : f / 65536 % 256 < 256 := Nat.mod_lt _ (by norm_num)
  generalize f / 65536 % 256 = b2 at *
  generalize f / 256 % 256 = b1 at *
  generalize f % 256 = b0 at *
  subst hsplit
  omega

/-! ## DAC conversion lemmas -/

theorem offsetDacCode_range (value : Int) :
    0 ≤ offsetDacCode value ∧ offsetDacCode value ≤ 4095 := by
  simp only [offsetDacCode, TSUNAMI_DAC_RANGE, TSUNAMI_DAC_BITS]
  generalize wrapInt32 (Int.tdiv _ _) = x
  norm_num
  split_ifs <;> omega

theorem amplitudeDacCode_range (value : Int) :
    0 ≤ amplitudeDacCode value ∧ amplitudeDacCode value ≤ 4095 := by
  simp only [amplitudeDacCode, TSUNAMI_DAC_RANGE, TSUNAMI_DAC_BITS]
  generalize wrapInt32 (Int.tdiv _ _) = x
  norm_num
  unfold wrapInt32
  split_ifs <;> omega

/-- Without overflow the offset stage is the saturated floor quotient. -/
theorem offsetDacCode_eq (value : Int) (hlo : -36842 ≤ value) (hhi : value ≤ 36841) :
    wrapInt32 (value + TSUNAMI_OFFSET_FS) = value + 4074
      ∧ wrapInt32 ((value + 4074) * TSUNAMI_DAC_RANGE) = (value + 4074) * 4096
      ∧ offsetDacCode value = min 4095 (max 0 ((value + 4074) * 4096 / 8148)) := by
  have hr : TSUNAMI_DAC_RANGE = 4096 := by decide
  have hfs : TSUNAMI_OFFSET_FS = 4074 := rfl
  have hA : wrapInt32 (value + 4074) = value + 4074 :=
    wrapInt32_eq_self _ (by omega) (by omega)
  have hB : wrapInt32 ((value + 4074) * 4096) = (value + 4074) * 4096 :=
    wrapInt32_eq_self _ (by omega) (by omega)
  have hC := tdiv_eq_ite ((value + 4074) * 4096) 8148 (by norm_num)
  have hD : wrapInt32 (Int.tdiv ((value + 4074) * 4096) 8148)
      = Int.tdiv ((value + 4074) * 4096) 8148 := by
    apply wrapInt32_eq_self
    · rw [hC]; split <;> omega
    · rw [hC]; split <;> omega
  refine ⟨by rw [hfs, hA], by rw [hr, hB], ?_⟩
  simp only [offsetDacCode, hr, hfs, hA, hB]
  norm_num only
  rw [hD, hC]
  split_ifs <;> omega

/-- Without overflow the amplitude stage is the inverted saturated floor quotient. -/
theorem amplitudeDacCode_eq (value : Int) (hlo : -32768 ≤ value) (hhi : value ≤ 32767) :
    wrapInt32 (value * TSUNAMI_DAC_RANGE) = value * 4096
      ∧ amplitudeDacCode value = 4095 - min 4095 (max 0 (value * 4096 / 6606)) := by
  have hr : TSUNAMI_DAC_RANGE = 4096 := by decide
  have hfs : TSUNAMI_AMPLITUDE_FS = 6606 := rfl
  have hB : wrapInt32 (value * 4096) = value * 4096 :=
    wrapInt32_eq_self _ (by omega) (by omega)
  have hC := tdiv_eq_ite (value * 4096) 6606 (by norm_num)
  have hD : wrapInt32 (Int.tdiv (value * 4096) 6606) = Int.tdiv (value * 4096) 6606 := by
    apply wrapInt32_eq_self
    · rw [hC]; split <;> omega
    · rw [hC]; split <;> omega
  have hneg : value < 0 → 0 ≤ -(value * 4096) / 6606 := fun h =>
    Int.ediv_nonneg (by omega) (by norm_num)
  have hclamp : (if (if Int.tdiv (value * 4096) 6606 < 0 then 0
        else Int.tdiv (value * 4096) 6606) ≥ 4096 then 4096 - 1
      else (if Int.tdiv (value * 4096) 6606 < 0 then 0 else Int.tdiv (value * 4096) 6606))
      = min 4095 (max 0 (value * 4096 / 6606)) := by
    rw [hC]
    split_ifs <;> omega
  refine ⟨by rw [hr, hB], ?_⟩
  simp only [amplitudeDacCode, hr, hfs, hB]
  rw [hD, hclamp]
  have hm0 : 0 ≤ min 4095 (max 0 (value * 4096 / 6606)) := by omega
  have hm1 : min 4095 (max 0 (value * 4096 / 6606)) ≤ 4095 := by omega
  generalize min 4095 (max 0 (value * 4096 / 6606)) = m at *
  unfold wrapInt32
  omega

/-! ## Statements about the frequency word and the DAC range -/

/-- C1: for every calibration entry and every millivolt input, and more generally for every
`int32_t` value the calibration step may produce, the code that `setOffset` hands to the DAC
and the code that `setAmplitude` hands to the DAC lie in `[0, 4095]`. -/
theorem C1_dac_codes_in_range (cal_data : cal_data_t) (millivolts value : Int) :
    (0 ≤ offsetDacCode value ∧ offsetDacCode value ≤ 4095)
      ∧ (0 ≤ amplitudeDacCode value ∧ amplitudeDacCode value ≤ 4095)
      ∧ (0 ≤ setOffset cal_data millivolts ∧ setOffset cal_data millivolts ≤ 4095)
      ∧ (0 ≤ setAmplitude cal_data millivolts ∧ setAmplitude cal_data millivolts ≤ 4095) :=
  ⟨offsetDacCode_range value, amplitudeDacCode_range value,
    offsetDacCode_range _, amplitudeDacCode_range _⟩

/-- C2 (failing input): `computeFrequencyWord` is not non-decreasing on its domain; the word
for 255 Hz is 4278 while the word for 256 Hz is 4096. -/
theorem C2_frequency_word_decreases :
    255 ≤ 256 ∧ 256 < 2 ^ 24 ∧ computeFrequencyWord 255 = 4278
      ∧ computeFrequencyWord 256 = 4096
      ∧ computeFrequencyWord 256 < computeFrequencyWord 255 := by
  decide

/-- C3 (failing input): at 256 Hz `computeFrequencyWord` returns 4096 whereas the wide
multiply-then-divide `(frequency * 2^28) / 16000000` is 4294. -/
theorem C3_frequency_word_differs_from_wide :
    256 < 2 ^ 24 ∧ computeFrequencyWord 256 = 4096 ∧ wideFrequencyWord 256 = 4294
      ∧ computeFrequencyWord 256 ≠ wideFrequencyWord 256 := by
  decide

/-- C4: for every frequency below `2 ^ 24` the word never exceeds the exact rational value
`E = f * 2^28 / 16000000`, and the shortfall `E - computeFrequencyWord f` is below
`1 + 2^8 + 2^16 = 65793`. -/
theorem C4_frequency_word_error_bound (f : Nat) (hf : f < 2 ^ 24) :
    (0 : ℚ) ≤ (f : ℚ) * 2 ^ 28 / (referenceClockHz : ℚ) - (computeFrequencyWord f : ℚ)
      ∧ (f : ℚ) * 2 ^ 28 / (referenceClockHz : ℚ) - (computeFrequencyWord f : ℚ)
          < 1 + 2 ^ 8 + 2 ^ 16 := by
  obtain ⟨hle, hlt⟩ := computeFrequencyWord_scaled_bounds f hf
  have hle' : ((computeFrequencyWord f : ℚ)) * 250000 ≤ (f : ℚ) * 2 ^ 22 := by
    exact_mod_cast hle
  have hlt' : (f : ℚ) * 2 ^ 22 < ((computeFrequencyWord f : ℚ) + 65793) * 250000 := by
    exact_mod_cast hlt
  have hclk : (referenceClockHz : ℚ) = 16000000 := by
    norm_num [referenceClockHz, TSUNAMI_FREQUENCY]
  have hE : (f : ℚ) * 2 ^ 28 / (referenceClockHz : ℚ) = (f : ℚ) * 2 ^ 22 / 250000 := by
    rw [hclk]
    ring
  rw [hE]
  constructor
  · rw [sub_nonneg, le_div_iff₀ (by norm_num)]
    exact hle'
  · rw [sub_lt_iff_lt_add, div_lt_iff₀ (by norm_num)]
    linarith

/-- Witness for C4 at 1 MHz. -/
theorem C4_frequency_word_error_bound_witness :
    1000000 < 2 ^ 24
      ∧ ((0 : ℚ) ≤ ((1000000 : Nat) : ℚ) * 2 ^ 28 / (referenceClockHz : ℚ)
            - (computeFrequencyWord 1000000 : ℚ)
          ∧ ((1000000 : Nat) : ℚ) * 2 ^ 28 / (referenceClockHz : ℚ)
            - (computeFrequencyWord 1000000 : ℚ) < 1 + 2 ^ 8 + 2 ^ 16) :=
  ⟨by norm_num, C4_frequency_word_error_bound 1000000 (by norm_num)⟩

/-- C5: for every frequency none of the three shifted byte products and none of the
recombination steps exceeds 32 bits, so the `uint32_t` result equals the byte-decomposition
formula on unbounded integers; for 1000000 Hz the terms are 251, 1107 and 1073 and the word
is 16734001. -/
theorem C5_frequency_word_no_overflow (f : Nat) :
    ((f &&& 0xFF) <<< 22 < 2 ^ 32 ∧ (f &&& 0xFF00) <<< 14 < 2 ^ 32
        ∧ (f &&& 0xFF0000) <<< 6 < 2 ^ 32)
      ∧ (hval f <<< 16 < 2 ^ 32 ∧ mval f <<< 8 < 2 ^ 32
        ∧ (hval f <<< 16) + (mval f <<< 8) + lval f < 2 ^ 32)
      ∧ computeFrequencyWord f = (hval f <<< 16) + (mval f <<< 8) + lval f
      ∧ computeFrequencyWord f
          = 65536 * ((f / 65536 % 256) * 2 ^ 22 / 250000)
            + 256 * ((f / 256 % 256) * 2 ^ 22 / 250000)
            + (f % 256) * 2 ^ 22 / 250000
      ∧ (hval 1000000 = 251 ∧ mval 1000000 = 1107 ∧ lval 1000000 = 1073
        ∧ computeFrequencyWord 1000000 = 16734001) := by
  have hb0 : f % 256 < 256 := Nat.mod_lt _ (by norm_num)
  have hb1 : f / 256 % 256 < 256 := Nat.mod_lt _ (by norm_num)
  have hb2 : f / 65536 % 256 < 256 := Nat.mod_lt _ (by norm_num)
  have h0 := byte_quotient_le (f % 256) hb0
  have h1 := byte_quotient_le (f / 256 % 256) hb1
  have h2 := byte_quotient_le (f / 65536 % 256) hb2
  have hword := computeFrequencyWord_eq f
  unfold byteDecompositionWord at hword
  refine ⟨⟨?_, ?_, ?_⟩, ?_, ?_, hword, by decide⟩
  · rw [and_0xFF, Nat.shiftLeft_eq]; omega
  · rw [and_0xFF00, Nat.shiftLeft_eq]; omega
  · rw [and_0xFF0000, Nat.shiftLeft_eq]; omega
  · rw [hval_eq, mval_eq, lval_eq, Nat.shiftLeft_eq, Nat.shiftLeft_eq]
    omega
  · rw [hword, hval_eq, mval_eq, lval_eq, Nat.shiftLeft_eq, Nat.shiftLeft_eq]
    omega

/-! ## ADC reader lemmas -/

theorem TSUNAMI_VIN_SCALING_eq : TSUNAMI_VIN_SCALING = 388736 := by
  decide

/-- The body shared in shape by the three readers, for an identity entry and a raw code in
`[0, 1023]`: no step overflows and the result is `floor(raw * 3037 / 512) - 3037`. -/
theorem adc_reading_identity (c : calibration_data_t) (raw : Int)
    (hc : c = { scale := 1, shift := 0 }) (h0 : 0 ≤ raw) (h1 : raw ≤ 1023) :
    wrapInt16 (applyCalibration c
        (wrapInt32
          (wrapInt32 (raw * TSUNAMI_VIN_SCALING) >>> (16 : Nat) - TSUNAMI_VIN_RANGE)))
      = raw * 3037 / 512 - 3037 := by
  have hA : wrapInt32 (raw * 388736) = raw * 388736 :=
    wrapInt32_eq_self _ (by omega) (by omega)
  have hS : (raw * 388736) >>> (16 : Nat) = raw * 3037 / 512 := by
    rw [Int.shiftRight_eq_div_pow]
    omega
  have hq0 : 0 ≤ raw * 3037 / 512 := by omega
  have hq1 : raw * 3037 / 512 ≤ 6068 := by omega
  have hB : wrapInt32 (raw * 3037 / 512 - 3037) = raw * 3037 / 512 - 3037 :=
    wrapInt32_eq_self _ (by omega) (by omega)
  have hr : TSUNAMI_VIN_RANGE = 3037 := rfl
  rw [TSUNAMI_VIN_SCALING_eq, hr, hA, hS, hB,
    applyCalibration_identity c _ hc (abs_lt.2 ⟨by omega, by omega⟩)]
  exact wrapInt16_eq_self _ (by omega) (by omega)

/-! ## Statements about the signal value converters -/

/-- C6 (counterexample): with identity calibration and raw code 1023 the reader returns
3031 mV, not `floor(1023 * 3037 / 1024) - 3037 = -3`. -/
theorem C6_adc_scale_counterexample :
    measurePeakVoltage identity_cal_data 1023 = 3031
      ∧ (1023 * 3037 / 1024 - 3037 : Int) = -3
      ∧ measurePeakVoltage identity_cal_data 1023 ≠ 1023 * 3037 / 1024 - 3037 := by
  have h : measurePeakVoltage identity_cal_data 1023 = 1023 * 3037 / 512 - 3037 :=
    adc_reading_identity _ 1023 rfl (by norm_num) (by norm_num)
  rw [h]
  decide

/-- C6 (amended): each ADC-to-millivolt reader rescales the raw code by
`2 * 3037 / 1024 = 3037 / 512` before subtracting the 3037 mV bias: with identity
calibration, for every raw code `r` in `[0, 1023]` the reading is
`floor(r * 3037 / 512) - 3037`. -/
theorem C6_adc_readers_identity (cal_data : cal_data_t) (r : Int)
    (hpeak : cal_data ⟨CAL_DATA_PEAK_VALUE, by decide⟩ = { scale := 1, shift := 0 })
    (hmean : cal_data ⟨CAL_DATA_MEAN_VALUE, by decide⟩ = { scale := 1, shift := 0 })
    (hcurrent : cal_data ⟨CAL_DATA_CURRENT_VALUE, by decide⟩ = { scale := 1, shift := 0 })
    (h0 : 0 ≤ r) (h1 : r ≤ 1023) :
    measurePeakVoltage cal_data r = r * 3037 / 512 - 3037
      ∧ measureMeanVoltage cal_data r = r * 3037 / 512 - 3037
      ∧ measureCurrentVoltage cal_data r = r * 3037 / 512 - 3037 :=
  ⟨adc_reading_identity _ r hpeak h0 h1, adc_reading_identity _ r hmean h0 h1,
    adc_reading_identity _ r hcurrent h0 h1⟩

/-- Witness for C6 (amended) at mid-scale, raw code 512. -/
theorem C6_adc_readers_identity_witness :
    (0 : Int) ≤ 512 ∧ (512 : Int) ≤ 1023
      ∧ measurePeakVoltage identity_cal_data 512 = 512 * 3037 / 512 - 3037
      ∧ measureMeanVoltage identity_cal_data 512 = 512 * 3037 / 512 - 3037
      ∧ measureCurrentVoltage identity_cal_data 512 = 512 * 3037 / 512 - 3037 :=
  ⟨by norm_num, by norm_num,
    C6_adc_readers_identity identity_cal_data 512 rfl rfl rfl (by norm_num) (by norm_num)⟩

/-- C7: with Offset scale 1.0 and an integer shift `s`, `-4074 ≤ s < 4074`, the offset code
for 0 mV is `2048 + floor(s * 4096 / 8148)`, so it differs from the identity-calibration
code 2048 by the code delta of `s` mV at the ratio `4096 / (2 * 4074)`; for `s = 100` the
code is 2098, a delta of exactly 50. -/
theorem C7_offset_shift_delta (cal_data cal_data0 : cal_data_t) (s : Int)
    (hid : cal_data0 ⟨CAL_DATA_OFFSET, by decide⟩ = { scale := 1, shift := 0 })
    (hscale : (cal_data ⟨CAL_DATA_OFFSET, by decide⟩).scale = 1)
    (hshift : (cal_data ⟨CAL_DATA_OFFSET, by decide⟩).shift = (s : ℚ))
    (hlo : -4074 ≤ s) (hhi : s < 4074) :
    setOffset cal_data0 0 = 2048
      ∧ setOffset cal_data 0 = 2048 + s * 4096 / 8148
      ∧ setOffset cal_data 0 - setOffset cal_data0 0 = s * 4096 / 8148
      ∧ (s = 100 → setOffset cal_data 0 = 2098
          ∧ setOffset cal_data 0 - setOffset cal_data0 0 = 50) := by
  have hbase : setOffset cal_data0 0 = 2048 := by
    unfold setOffset
    rw [applyCalibration_identity _ 0 hid (by norm_num), (offsetDacCode_eq 0 (by norm_num)
      (by norm_num)).2.2]
    decide
  have hshifted : setOffset cal_data 0 = 2048 + s * 4096 / 8148 := by
    unfold setOffset
    rw [applyCalibration_unit_scale _ 0 s hscale hshift (by norm_num)
      (abs_lt.2 ⟨by omega, by omega⟩), (offsetDacCode_eq (0 + s) (by omega) (by omega)).2.2]
    omega
  refine ⟨hbase, hshifted, by rw [hshifted, hbase]; omega, ?_⟩
  intro hs
  rw [hshifted, hbase, hs]
  decide

/-- Witness for C7: the scenario with a shift of 100 mV. -/
theorem C7_offset_shift_delta_witness :
    setOffset identity_cal_data 0 = 2048
      ∧ setOffset (cal_data_with identity_cal_data ⟨CAL_DATA_OFFSET, by decide⟩
          { scale := 1, shift := 100 }) 0 = 2048 + 100 * 4096 / 8148
      ∧ setOffset (cal_data_with identity_cal_data ⟨CAL_DATA_OFFSET, by decide⟩
            { scale := 1, shift := 100 }) 0 - setOffset identity_cal_data 0
          = 100 * 4096 / 8148
      ∧ ((100 : Int) = 100 →
          setOffset (cal_data_with identity_cal_data ⟨CAL_DATA_OFFSET, by decide⟩
            { scale := 1, shift := 100 }) 0 = 2098
          ∧ setOffset (cal_data_with identity_cal_data ⟨CAL_DATA_OFFSET, by decide⟩
              { scale := 1, shift := 100 }) 0 - setOffset identity_cal_data 0 = 50) :=
  C7_offset_shift_delta
    (cal_data_with identity_cal_data ⟨CAL_DATA_OFFSET, by decide⟩ { scale := 1, shift := 100 })
    identity_cal_data 100 rfl (by simp [cal_data_with]) (by simp [cal_data_with])
    (by norm_num) (by norm_num)

/-- C8: with identity calibration, for every 16-bit millivolt input the calibration step is
exact, neither the addition of 4074 nor the multiplication by 4096 overflows 32 bits, and
the DAC code of `setOffset` is `min(4095, max(0, floor((mv + 4074) * 4096 / 8148)))`; every
input of at least 4074 mV gives 4095 and every input of at most -4074 mV gives 0. -/
theorem C8_offset_identity_saturates (cal_data : cal_data_t) (millivolts : Int)
    (hid : cal_data ⟨CAL_DATA_OFFSET, by decide⟩ = { scale := 1, shift := 0 })
    (hlo : -32768 ≤ millivolts) (hhi : millivolts ≤ 32767) :
    applyCalibration (cal_data ⟨CAL_DATA_OFFSET, by decide⟩) millivolts = millivolts
      ∧ wrapInt32 (millivolts + TSUNAMI_OFFSET_FS) = millivolts + 4074
      ∧ wrapInt32 ((millivolts + 4074) * TSUNAMI_DAC_RANGE) = (millivolts + 4074) * 4096
      ∧ setOffset cal_data millivolts
          = min 4095 (max 0 ((millivolts + 4074) * 4096 / 8148))
      ∧ (4074 ≤ millivolts → setOffset cal_data millivolts = 4095)
      ∧ (millivolts ≤ -4074 → setOffset cal_data millivolts = 0) := by
  have hcal := applyCalibration_identity _ millivolts hid (abs_lt.2 ⟨by omega, by omega⟩)
  obtain ⟨hA, hB, hcode⟩ := offsetDacCode_eq millivolts (by omega) (by omega)
  have hset : setOffset cal_data millivolts
      = min 4095 (max 0 ((millivolts + 4074) * 4096 / 8148)) := by
    unfold setOffset
    rw [hcal, hcode]
  refine ⟨hcal, hA, hB, hset, ?_, ?_⟩
  · intro h
    rw [hset]
    omega
  · intro h
    rw [hset]
    omega

/-- Witness for C8 at the largest 16-bit input. -/
theorem C8_offset_identity_saturates_witness :
    applyCalibration (identity_cal_data ⟨CAL_DATA_OFFSET, by decide⟩) 32767 = 32767
      ∧ wrapInt32 (32767 + TSUNAMI_OFFSET_FS) = 32767 + 4074
      ∧ wrapInt32 ((32767 + 4074) * TSUNAMI_DAC_RANGE) = (32767 + 4074) * 4096
      ∧ setOffset identity_cal_data 32767
          = min 4095 (max 0 ((32767 + 4074) * 4096 / 8148))
      ∧ ((4074 : Int) ≤ 32767 → setOffset identity_cal_data 32767 = 4095)
      ∧ ((32767 : Int) ≤ -4074 → setOffset identity_cal_data 32767 = 0) :=
  C8_offset_identity_saturates identity_cal_data 32767 rfl (by norm_num) (by norm_num)

/-- C9: with identity calibration in the Offset entry, `setOffset(0)` writes exactly the DAC
midpoint code 2048. -/
theorem C9_offset_midpoint (cal_data : cal_data_t)
    (hid : cal_data ⟨CAL_DATA_OFFSET, by decide⟩ = { scale := 1, shift := 0 }) :
    setOffset cal_data 0 = 2048 := by
  unfold setOffset
  rw [applyCalibration_identity _ 0 hid (by norm_num),
    (offsetDacCode_eq 0 (by norm_num) (by norm_num)).2.2]
  decide

/-- Witness for C9 on the all-identity table. -/
theorem C9_offset_midpoint_witness : setOffset identity_cal_data 0 = 2048 :=
  C9_offset_midpoint identity_cal_data rfl

/-- C10: with identity calibration in the Amplitude entry, `setAmplitude(0)` writes exactly
the maximum DAC code 4095. -/
theorem C10_amplitude_zero_is_max (cal_data : cal_data_t)
    (hid : cal_data ⟨CAL_DATA_AMPLITUDE, by decide⟩ = { scale := 1, shift := 0 }) :
    setAmplitude cal_data 0 = 4095 := by
  unfold setAmplitude
  rw [applyCalibration_identity _ 0 hid (by norm_num),
    (amplitudeDacCode_eq 0 (by norm_num) (by norm_num)).2]
  decide

/-- Witness for C10 on the all-identity table. -/
theorem C10_amplitude_zero_is_max_witness : setAmplitude identity_cal_data 0 = 4095 :=
  C10_amplitude_zero_is_max identity_cal_data rfl

/-! ## Calibration record store lemmas -/

theorem setCalibrationData_of_real_slot (st : cal_state) (value : Nat) (scale shift : ℚ)
    (h : value < CAL_DATA_ALL) :
    setCalibrationData st value scale shift
      = (cal_status.success,
          { store := cal_store_with st.store ⟨value, h⟩
              { magic := TSUNAMI_CALIBRATION, scale := scale, shift := shift }
            cal_data :=
              cal_data_with st.cal_data ⟨value, h⟩ { scale := scale, shift := shift } }) := by
  unfold setCalibrationData
  rw [dif_pos h]

theorem setCalibrationData_of_other_slot (st : cal_state) (value : Nat) (scale shift : ℚ)
    (h : CAL_DATA_ALL ≤ value) :
    setCalibrationData st value scale shift = (cal_status.invalid_slot, st) := by
  unfold setCalibrationData
  rw [dif_neg (Nat.not_lt.2 h)]

theorem useCalibrationData_none (st : cal_state) :
    useCalibrationData st CAL_DATA_NONE
      = (cal_status.success, { st with cal_data := fun _ => { scale := 1, shift := 0 } }) := by
  unfold useCalibrationData
  rw [if_pos rfl]

/-- Reading a slot depends on the persisted records only. -/
theorem getCalibrationData_congr (st st2 : cal_state) (value : Nat) (scale shift : ℚ)
    (h : st2.store = st.store) :
    getCalibrationData st2 value scale shift = getCalibrationData st value scale shift := by
  unfold getCalibrationData
  rw [h]

/-! ## Statements about the calibration record store -/

/-- C11: for every real slot and every (scale, shift) pair, `setCalibrationData` followed by
`getCalibrationData` on the same slot returns success and exactly the same pair, whatever the
storage and the output parameters held before. -/
theorem C11_set_then_get_round_trip (st : cal_state) (value : Nat)
    (scale shift out_scale out_shift : ℚ) (hslot : value < CAL_DATA_ALL) :
    (setCalibrationData st value scale shift).1 = cal_status.success
      ∧ getCalibrationData (setCalibrationData st value scale shift).2 value out_scale out_shift
          = (cal_status.success, scale, shift) := by
  rw [setCalibrationData_of_real_slot st value scale shift hslot]
  refine ⟨rfl, ?_⟩
  unfold getCalibrationData
  rw [dif_pos hslot]
  simp [cal_store_with]

/-- Witness for C11: the PeakValue slot on blank storage. -/
theorem C11_set_then_get_round_trip_witness :
    CAL_DATA_PEAK_VALUE < CAL_DATA_ALL
      ∧ (setCalibrationData startup_state CAL_DATA_PEAK_VALUE (5 / 4) 100).1
          = cal_status.success
      ∧ getCalibrationData (setCalibrationData startup_state CAL_DATA_PEAK_VALUE (5 / 4) 100).2
            CAL_DATA_PEAK_VALUE 0 0
          = (cal_status.success, 5 / 4, 100) :=
  ⟨by decide,
    C11_set_then_get_round_trip startup_state CAL_DATA_PEAK_VALUE (5 / 4) 100 0 0 (by decide)⟩

/-- C12: after any sequence of `setCalibrationData` / `useCalibrationData` calls, from any
starting state, `useCalibrationData(CAL_DATA_NONE)` returns success, makes all 5 runtime
entries equal to `{1.0, 0.0}` and leaves every persisted record unchanged, so that a following
`getCalibrationData` returns what it returned before. -/
theorem C12_none_resets_runtime_table (st0 : cal_state) (calls : List cal_call)
    (value : Nat) (scale shift : ℚ) :
    (useCalibrationData (runCalls st0 calls) CAL_DATA_NONE).1 = cal_status.success
      ∧ (∀ i : Fin CAL_DATA_ALL,
          (useCalibrationData (runCalls st0 calls) CAL_DATA_NONE).2.cal_data i
            = { scale := 1, shift := 0 })
      ∧ (useCalibrationData (runCalls st0 calls) CAL_DATA_NONE).2.store
          = (runCalls st0 calls).store
      ∧ getCalibrationData (useCalibrationData (runCalls st0 calls) CAL_DATA_NONE).2
            value scale shift
          = getCalibrationData (runCalls st0 calls) value scale shift := by
  rw [useCalibrationData_none]
  exact ⟨rfl, fun _ => rfl, rfl, getCalibrationData_congr _ _ value scale shift rfl⟩

/-- C13: `setCalibrationData` called with a slot that is not one of the 5 real slots
(`CAL_DATA_ALL`, `CAL_DATA_NONE` or any larger value) returns the invalid-slot error and
changes neither the persisted storage nor any runtime entry. -/
theorem C13_set_rejects_other_slots (st : cal_state) (value : Nat) (scale shift : ℚ)
    (hslot : CAL_DATA_ALL ≤ value) :
    (setCalibrationData st value scale shift).1 = cal_status.invalid_slot
      ∧ (setCalibrationData st value scale shift).2.store = st.store
      ∧ (∀ i : Fin CAL_DATA_ALL,
          (setCalibrationData st value scale shift).2.cal_data i = st.cal_data i)
      ∧ (setCalibrationData st CAL_DATA_ALL scale shift).1 = cal_status.invalid_slot
      ∧ (setCalibrationData st CAL_DATA_NONE scale shift).1 = cal_status.invalid_slot := by
  rw [setCalibrationData_of_other_slot st value scale shift hslot,
    setCalibrationData_of_other_slot st CAL_DATA_ALL scale shift (by decide),
    setCalibrationData_of_other_slot st CAL_DATA_NONE scale shift (by decide)]
  exact ⟨rfl, rfl, fun _ => rfl, rfl, rfl⟩

/-- Witness for C13: the selector `CAL_DATA_NONE` after a successful write. -/
theorem C13_set_rejects_other_slots_witness :
    CAL_DATA_ALL ≤ CAL_DATA_NONE
      ∧ ((setCalibrationData (setCalibrationData startup_state 0 2 7).2 CAL_DATA_NONE 3 9).1
          = cal_status.invalid_slot
        ∧ (setCalibrationData (setCalibrationData startup_state 0 2 7).2 CAL_DATA_NONE 3 9).2.store
          = (setCalibrationData startup_state 0 2 7).2.store
        ∧ (∀ i : Fin CAL_DATA_ALL,
            (setCalibrationData (setCalibrationData startup_state 0 2 7).2
                CAL_DATA_NONE 3 9).2.cal_data i
              = (setCalibrationData startup_state 0 2 7).2.cal_data i)
        ∧ (setCalibrationData (setCalibrationData startup_state 0 2 7).2 CAL_DATA_ALL 3 9).1
          = cal_status.invalid_slot
        ∧ (setCalibrationData (setCalibrationData startup_state 0 2 7).2 CAL_DATA_NONE 3 9).1
          = cal_status.invalid_slot) :=
  ⟨by decide,
    C13_set_rejects_other_slots (setCalibrationData startup_state 0 2 7).2 CAL_DATA_NONE 3 9
      (by decide)⟩

/-! ## Frequency register selection lemmas -/

/-- C14: the word for 0 Hz is 0. -/
theorem C14_frequency_word_zero : computeFrequencyWord 0 = 0 := by
  decide

/-- C18: for every frequency below the 16 MHz reference clock the word is below `2 ^ 28` and
so fits the 28-bit frequency register of the DDS, while for the frequency `0xFFFFFF`, which is
below `2 ^ 24`, the word is at least `2 ^ 28`. -/
theorem C18_frequency_word_fits_28_bits (f : Nat) (hf : f < referenceClockHz) :
    computeFrequencyWord f < 2 ^ 28
      ∧ (0xFFFFFF < 2 ^ 24 ∧ 2 ^ 28 ≤ computeFrequencyWord 0xFFFFFF) := by
  have hclk : referenceClockHz = 16000000 := by decide
  rw [hclk] at hf
  obtain ⟨hle, -⟩ := computeFrequencyWord_scaled_bounds f (by omega)
  refine ⟨by omega, by decide⟩

/-- Witness for C18 at the largest frequency below the reference clock. -/
theorem C18_frequency_word_fits_28_bits_witness :
    15999999 < referenceClockHz
      ∧ (computeFrequencyWord 15999999 < 2 ^ 28
        ∧ (0xFFFFFF < 2 ^ 24 ∧ 2 ^ 28 ≤ computeFrequencyWord 0xFFFFFF)) :=
  ⟨by decide, C18_frequency_word_fits_28_bits 15999999 (by decide)⟩

/-! ## Remaining lemmas about the converters -/

/-- With the identity entry in the Amplitude slot and a 16-bit input, `setAmplitude` is the
inverted saturated floor quotient. -/
theorem setAmplitude_identity (cal_data : cal_data_t) (millivolts : Int)
    (hid : cal_data ⟨CAL_DATA_AMPLITUDE, by decide⟩ = { scale := 1, shift := 0 })
    (hlo : -32768 ≤ millivolts) (hhi : millivolts ≤ 32767) :
    setAmplitude cal_data millivolts = 4095 - min 4095 (max 0 (millivolts * 4096 / 6606)) := by
  unfold setAmplitude
  rw [applyCalibration_identity _ millivolts hid (abs_lt.2 ⟨by omega, by omega⟩),
    (amplitudeDacCode_eq millivolts hlo hhi).2]

/-- A reader is unaffected by a change to a runtime entry other than the one it indexes. -/
theorem cal_data_with_other (base : cal_data_t) (i j : Fin CAL_DATA_ALL)
    (c : calibration_data_t) (h : i ≠ j) : cal_data_with base i c j = base j := by
  unfold cal_data_with
  rw [if_neg (Ne.symm h)]

/-! ## Remaining statements about the signal value converters -/

/-- C16: with identity calibration `setAmplitude` has inverted polarity over all 16-bit
millivolt inputs: the calibration step is exact, the multiplication by 4096 does not overflow
32 bits, the DAC code equals `4095 - min(4095, max(0, floor(mv * 4096 / 6606)))`, it is
non-increasing in the input, it is 4095 for every input of at most 0 mV and 0 for every input
of at least 6606 mV. -/
theorem C16_amplitude_inverted_polarity (cal_data : cal_data_t) (millivolts millivolts2 : Int)
    (hid : cal_data ⟨CAL_DATA_AMPLITUDE, by decide⟩ = { scale := 1, shift := 0 })
    (hlo : -32768 ≤ millivolts) (hle : millivolts ≤ millivolts2) (hhi : millivolts2 ≤ 32767) :
    applyCalibration (cal_data ⟨CAL_DATA_AMPLITUDE, by decide⟩) millivolts = millivolts
      ∧ wrapInt32 (millivolts * TSUNAMI_DAC_RANGE) = millivolts * 4096
      ∧ setAmplitude cal_data millivolts
          = 4095 - min 4095 (max 0 (millivolts * 4096 / 6606))
      ∧ setAmplitude cal_data millivolts2 ≤ setAmplitude cal_data millivolts
      ∧ (millivolts ≤ 0 → setAmplitude cal_data millivolts = 4095)
      ∧ (6606 ≤ millivolts → setAmplitude cal_data millivolts = 0) := by
  have h1 := setAmplitude_identity cal_data millivolts hid hlo (by omega)
  have h2 := setAmplitude_identity cal_data millivolts2 hid (by omega) hhi
  have hq : millivolts * 4096 / 6606 ≤ millivolts2 * 4096 / 6606 :=
    Int.ediv_le_ediv (by norm_num) (by omega)
  refine ⟨applyCalibration_identity _ millivolts hid (abs_lt.2 ⟨by omega, by omega⟩),
    (amplitudeDacCode_eq millivolts hlo (by omega)).1, h1, ?_, ?_, ?_⟩
  · rw [h1, h2]
    omega
  · intro h
    rw [h1]
    omega
  · intro h
    rw [h1]
    omega

/-- Witness for C16: 1000 mV against 5000 mV on the all-identity table. -/
theorem C16_amplitude_inverted_polarity_witness :
    applyCalibration (identity_cal_data ⟨CAL_DATA_AMPLITUDE, by decide⟩) 1000 = 1000
      ∧ wrapInt32 (1000 * TSUNAMI_DAC_RANGE) = 1000 * 4096
      ∧ setAmplitude identity_cal_data 1000 = 4095 - min 4095 (max 0 (1000 * 4096 / 6606))
      ∧ setAmplitude identity_cal_data 5000 ≤ setAmplitude identity_cal_data 1000
      ∧ ((1000 : Int) ≤ 0 → setAmplitude identity_cal_data 1000 = 4095)
      ∧ ((6606 : Int) ≤ 1000 → setAmplitude identity_cal_data 1000 = 0) :=
  C16_amplitude_inverted_polarity identity_cal_data 1000 5000 rfl (by norm_num) (by norm_num)
    (by norm_num)

/-- C17: the three readers compute one and the same function of the raw ADC code and of the
calibration entry of their own slot: with equal raw codes and equal entries their results are
equal, and replacing any other runtime entry does not change a reader's result. -/
theorem C17_readers_same_function (calPeak calMean calCurrent : cal_data_t) (raw : Int)
    (hpm : calPeak ⟨CAL_DATA_PEAK_VALUE, by decide⟩ = calMean ⟨CAL_DATA_MEAN_VALUE, by decide⟩)
    (hmc : calMean ⟨CAL_DATA_MEAN_VALUE, by decide⟩
      = calCurrent ⟨CAL_DATA_CURRENT_VALUE, by decide⟩) :
    (measurePeakVoltage calPeak raw = measureMeanVoltage calMean raw
        ∧ measureMeanVoltage calMean raw = measureCurrentVoltage calCurrent raw)
      ∧ (∃ g : calibration_data_t → Int → Int, ∀ (cal_data : cal_data_t) (r : Int),
          measurePeakVoltage cal_data r = g (cal_data ⟨CAL_DATA_PEAK_VALUE, by decide⟩) r
            ∧ measureMeanVoltage cal_data r = g (cal_data ⟨CAL_DATA_MEAN_VALUE, by decide⟩) r
            ∧ measureCurrentVoltage cal_data r
                = g (cal_data ⟨CAL_DATA_CURRENT_VALUE, by decide⟩) r)
      ∧ (∀ (i : Fin CAL_DATA_ALL) (c : calibration_data_t),
          i ≠ ⟨CAL_DATA_PEAK_VALUE, by decide⟩ →
            measurePeakVoltage (cal_data_with calPeak i c) raw
              = measurePeakVoltage calPeak raw)
      ∧ (∀ (i : Fin CAL_DATA_ALL) (c : calibration_data_t),
          i ≠ ⟨CAL_DATA_MEAN_VALUE, by decide⟩ →
            measureMeanVoltage (cal_data_with calMean i c) raw
              = measureMeanVoltage calMean raw)
      ∧ (∀ (i : Fin CAL_DATA_ALL) (c : calibration_data_t),
          i ≠ ⟨CAL_DATA_CURRENT_VALUE, by decide⟩ →
            measureCurrentVoltage (cal_data_with calCurrent i c) raw
              = measureCurrentVoltage calCurrent raw) := by
  refine ⟨⟨?_, ?_⟩, ?_, ?_, ?_, ?_⟩
  · unfold measurePeakVoltage measureMeanVoltage
    rw [hpm]
  · unfold measureMeanVoltage measureCurrentVoltage
    rw [hmc]
  · exact ⟨fun c r => wrapInt16 (applyCalibration c
      (wrapInt32 (wrapInt32 (r * TSUNAMI_VIN_SCALING) >>> (16 : Nat) - TSUNAMI_VIN_RANGE))),
      fun _ _ => ⟨rfl, rfl, rfl⟩⟩
  · intro i c h
    unfold measurePeakVoltage
    rw [cal_data_with_other calPeak i _ c h]
  · intro i c h
    unfold measureMeanVoltage
    rw [cal_data_with_other calMean i _ c h]
  · intro i c h
    unfold measureCurrentVoltage
    rw [cal_data_with_other calCurrent i _ c h]

/-- Witness for C17: one table whose three reader entries all hold `{5/4, 100}`. -/
theorem C17_readers_same_function_witness :
    measurePeakVoltage (fun _ => { scale := 5 / 4, shift := 100 }) 700
        = measureMeanVoltage (fun _ => { scale := 5 / 4, shift := 100 }) 700
      ∧ measureMeanVoltage (fun _ => { scale := 5 / 4, shift := 100 }) 700
        = measureCurrentVoltage (fun _ => { scale := 5 / 4, shift := 100 }) 700 :=
  (C17_readers_same_function (fun _ => { scale := 5 / 4, shift := 100 })
    (fun _ => { scale := 5 / 4, shift := 100 }) (fun _ => { scale := 5 / 4, shift := 100 })
    700 rfl rfl).1

/-- C19: with identity calibration, for every raw ADC code in `[0, 1023]` the multiplication
by `TSUNAMI_VIN_SCALING = 388736` does not overflow `int32_t`, the reading equals
`floor(r * 3037 / 512) - 3037`, it lies in `[-3037, 3031]` so that the cast to `int16_t` loses
nothing, it is non-decreasing in the raw code, and it is exactly 0 mV at mid-scale 512. -/
theorem C19_adc_reading_exact (cal_data : cal_data_t) (r r2 : Int)
    (hpeak : cal_data ⟨CAL_DATA_PEAK_VALUE, by decide⟩ = { scale := 1, shift := 0 })
    (hmean : cal_data ⟨CAL_DATA_MEAN_VALUE, by decide⟩ = { scale := 1, shift := 0 })
    (hcurrent : cal_data ⟨CAL_DATA_CURRENT_VALUE, by decide⟩ = { scale := 1, shift := 0 })
    (h0 : 0 ≤ r) (hle : r ≤ r2) (h1 : r2 ≤ 1023) :
    (TSUNAMI_VIN_SCALING = 388736 ∧ wrapInt32 (r * TSUNAMI_VIN_SCALING) = r * 388736)
      ∧ (measurePeakVoltage cal_data r = r * 3037 / 512 - 3037
        ∧ measureMeanVoltage cal_data r = r * 3037 / 512 - 3037
        ∧ measureCurrentVoltage cal_data r = r * 3037 / 512 - 3037)
      ∧ (-3037 ≤ measurePeakVoltage cal_data r ∧ measurePeakVoltage cal_data r ≤ 3031
        ∧ wrapInt16 (r * 3037 / 512 - 3037) = r * 3037 / 512 - 3037)
      ∧ (measurePeakVoltage cal_data r ≤ measurePeakVoltage cal_data r2
        ∧ measureMeanVoltage cal_data r ≤ measureMeanVoltage cal_data r2
        ∧ measureCurrentVoltage cal_data r ≤ measureCurrentVoltage cal_data r2)
      ∧ (measurePeakVoltage cal_data 512 = 0 ∧ measureMeanVoltage cal_data 512 = 0
        ∧ measureCurrentVoltage cal_data 512 = 0) := by
  have hr1 : r ≤ 1023 := by omega
  have hr2 : 0 ≤ r2 := by omega
  have hP := adc_reading_identity _ r hpeak h0 hr1
  have hM := adc_reading_identity _ r hmean h0 hr1
  have hC := adc_reading_identity _ r hcurrent h0 hr1
  have hP2 := adc_reading_identity _ r2 hpeak hr2 h1
  have hM2 := adc_reading_identity _ r2 hmean hr2 h1
  have hC2 := adc_reading_identity _ r2 hcurrent hr2 h1
  have hP0 := adc_reading_identity _ 512 hpeak (by norm_num) (by norm_num)
  have hM0 := adc_reading_identity _ 512 hmean (by norm_num) (by norm_num)
  have hC0 := adc_reading_identity _ 512 hcurrent (by norm_num) (by norm_num)
  have hq : r * 3037 / 512 ≤ r2 * 3037 / 512 := Int.ediv_le_ediv (by norm_num) (by omega)
  have hq0 : 0 ≤ r * 3037 / 512 := by omega
  have hq1 : r * 3037 / 512 ≤ 6068 := by omega
  have hmul : wrapInt32 (r * TSUNAMI_VIN_SCALING) = r * 388736 := by
    rw [TSUNAMI_VIN_SCALING_eq]
    exact wrapInt32_eq_self _ (by omega) (by omega)
  have hPr : measurePeakVoltage cal_data r = r * 3037 / 512 - 3037 := hP
  have hMr : measureMeanVoltage cal_data r = r * 3037 / 512 - 3037 := hM
  have hCr : measureCurrentVoltage cal_data r = r * 3037 / 512 - 3037 := hC
  have hPr2 : measurePeakVoltage cal_data r2 = r2 * 3037 / 512 - 3037 := hP2
  have hMr2 : measureMeanVoltage cal_data r2 = r2 * 3037 / 512 - 3037 := hM2
  have hCr2 : measureCurrentVoltage cal_data r2 = r2 * 3037 / 512 - 3037 := hC2
  have hPz : measurePeakVoltage cal_data 512 = 512 * 3037 / 512 - 3037 := hP0
  have hMz : measureMeanVoltage cal_data 512 = 512 * 3037 / 512 - 3037 := hM0
  have hCz : measureCurrentVoltage cal_data 512 = 512 * 3037 / 512 - 3037 := hC0
  refine ⟨⟨TSUNAMI_VIN_SCALING_eq, hmul⟩, ⟨hPr, hMr, hCr⟩, ⟨?_, ?_, ?_⟩, ⟨?_, ?_, ?_⟩,
    ⟨?_, ?_, ?_⟩⟩
  · rw [hPr]; omega
  · rw [hPr]; omega
  · exact wrapInt16_eq_self _ (by omega) (by omega)
  · rw [hPr, hPr2]; omega
  · rw [hMr, hMr2]; omega
  · rw [hCr, hCr2]; omega
  · rw [hPz]; decide
  · rw [hMz]; decide
  · rw [hCz]; decide

/-- Witness for C19: raw codes 0 and 1023 on the all-identity table. -/
theorem C19_adc_reading_exact_witness :
    measurePeakVoltage identity_cal_data 0 ≤ measurePeakVoltage identity_cal_data 1023
      ∧ measureMeanVoltage identity_cal_data 0 ≤ measureMeanVoltage identity_cal_data 1023
      ∧ measureCurrentVoltage identity_cal_data 0
          ≤ measureCurrentVoltage identity_cal_data 1023 :=
  (C19_adc_reading_exact identity_cal_data 0 1023 rfl rfl rfl (by norm_num) (by norm_num)
    (by norm_num)).2.2.2.1

end Tsunami
